import Mathlib

/-!
Verification development for the ArcGIS-Tools repository.

The layer-tree traversal (`get_all_feature_layers` in `arctools.py`, its
older variants in `_Scripts/`), and the project-scaffolding / folder-connection
reconciliation logic (`clone_project`, `create_project_folders`,
`set_connections`) are embedded as Lean definitions, and the documented
properties are proved or refuted against them.
-/

/-- A node of the map's layer tree, as the Python code reads it: the arcpy
attributes `visible`, `isGroupLayer`, `isFeatureLayer`, `isBasemapLayer`,
the capability check `supports("dataSource")`, and the children returned by
`listLayers()`. -/
inductive Layer where
  | mk (name : String) (visible : Bool) (isGroupLayer : Bool) (isFeatureLayer : Bool)
       (isBasemapLayer : Bool) (supportsDataSource : Bool) (children : List Layer)

def Layer.name : Layer → String
  | .mk n _ _ _ _ _ _ => n

def Layer.visible : Layer → Bool
  | .mk _ v _ _ _ _ _ => v

def Layer.isGroupLayer : Layer → Bool
  | .mk _ _ g _ _ _ _ => g

def Layer.isFeatureLayer : Layer → Bool
  | .mk _ _ _ f _ _ _ => f

def Layer.isBasemapLayer : Layer → Bool
  | .mk _ _ _ _ b _ _ => b

def Layer.supportsDataSource : Layer → Bool
  | .mk _ _ _ _ _ s _ => s

def Layer.listLayers : Layer → List Layer
  | .mk _ _ _ _ _ _ cs => cs

/-- Shallow embedding of `get_all_feature_layers` (src/arctools.py, lines
174-228; identical logic in src/_Scripts/arcgis_utils.py, lines 35-46).
Arguments follow the Python signature:
`get_all_feature_layers(layers, parent_visible=True, visible_only=False, include_groups=False)`. -/
def getAllFeatureLayers : List Layer → Bool → Bool → Bool → List Layer
  | [], _, _, _ => []
  | Layer.mk name visible isGroup isFeature isBasemap supportsDS children :: rest,
      parentVisible, visibleOnly, includeGroups =>
    let layer := Layer.mk name visible isGroup isFeature isBasemap supportsDS children
    let effectiveVisibility := visible && parentVisible
    (if isGroup then
      (if includeGroups && (!visibleOnly || effectiveVisibility) then [layer] else [])
        ++ getAllFeatureLayers children effectiveVisibility visibleOnly includeGroups
    else if isFeature && supportsDS && !isBasemap then
      (if !visibleOnly || effectiveVisibility then [layer] else [])
    else [])
      ++ getAllFeatureLayers rest parentVisible visibleOnly includeGroups

/-- `get_visible_feature_layers` (src/_Scripts/ExportToExcel.py, lines 5-24):
the older visibility-aware traversal.  Note that, unlike `getAllFeatureLayers`,
it has no `isBasemapLayer` check. -/
def getVisibleFeatureLayers : List Layer → Bool → List Layer
  | [], _ => []
  | Layer.mk name visible isGroup isFeature isBasemap supportsDS children :: rest,
      parentVisible =>
    let lyr := Layer.mk name visible isGroup isFeature isBasemap supportsDS children
    let lyrVisible := visible && parentVisible
    (if isGroup then getVisibleFeatureLayers children lyrVisible
     else if lyrVisible && isFeature && supportsDS then [lyr] else [])
      ++ getVisibleFeatureLayers rest parentVisible

/-- Specification-side description for the `visible_only=true`,
`include_groups=false` traversal, written from the spec's words: collect, in
depth-first pre-order, exactly the leaf (non-group) nodes that are feature
layers, have the data-source capability, are not basemap layers, and whose
effective visibility (own `visible` flag ANDed with the flag of every ancestor
up to the root) is true. -/
def specVisibleFeatureLeaves : List Layer → Bool → List Layer
  | [], _ => []
  | Layer.mk name visible isGroup isFeature isBasemap supportsDS children :: rest,
      ancestorsVisible =>
    let node := Layer.mk name visible isGroup isFeature isBasemap supportsDS children
    let eff := visible && ancestorsVisible
    (if isGroup then specVisibleFeatureLeaves children eff
     else if isFeature && supportsDS && !isBasemap && eff then [node] else [])
      ++ specVisibleFeatureLeaves rest ancestorsVisible

/-- No node anywhere in the forest is flagged as a basemap layer. -/
def noBasemapLayers : List Layer → Bool
  | [] => true
  | Layer.mk _ _ _ _ isBasemap _ children :: rest =>
    !isBasemap && noBasemapLayers children && noBasemapLayers rest

/-- A layer object as Python sees it: each of the four attribute slots may be
absent, in which case reading it raises `AttributeError`.  `supports` is
arcpy's capability test and is total (it answers `False` rather than raising). -/
inductive PyLayer where
  | mk (name : String) (visible : Option Bool) (isGroupLayer : Option Bool)
       (isFeatureLayer : Option Bool) (isBasemapLayer : Option Bool)
       (supportsDataSource : Bool) (children : List PyLayer)

/-- Python attribute access: the value when present, `AttributeError` when the
object does not carry the attribute. -/
def getattr (attrValue : Option Bool) (attrName : String) : Except String Bool :=
  match attrValue with
  | some b => Except.ok b
  | none => Except.error ("AttributeError: " ++ attrName)

/-- `get_all_feature_layers` (src/arctools.py, lines 204-228) under Python
attribute-access semantics: the same recursion as `getAllFeatureLayers`, with
every attribute read threaded through `getattr`, the `and` chains
short-circuiting exactly as in the source, and an `AttributeError` propagating
out of the loop. -/
def pyGetAllFeatureLayers : List PyLayer → Bool → Bool → Bool → Except String (List PyLayer)
  | [], _, _, _ => Except.ok []
  | PyLayer.mk name visible isGroup isFeature isBasemap supportsDS children :: rest,
      parentVisible, visibleOnly, includeGroups =>
    let layer := PyLayer.mk name visible isGroup isFeature isBasemap supportsDS children
    match getattr visible "visible" with
    | Except.error e => Except.error e
    | Except.ok visibleValue =>
      let effectiveVisibility := visibleValue && parentVisible
      match getattr isGroup "isGroupLayer" with
      | Except.error e => Except.error e
      | Except.ok true =>
        match pyGetAllFeatureLayers children effectiveVisibility visibleOnly includeGroups with
        | Except.error e => Except.error e
        | Except.ok fromChildren =>
          match pyGetAllFeatureLayers rest parentVisible visibleOnly includeGroups with
          | Except.error e => Except.error e
          | Except.ok fromRest =>
            Except.ok
              ((if includeGroups && (!visibleOnly || effectiveVisibility) then [layer] else [])
                ++ fromChildren ++ fromRest)
      | Except.ok false =>
        match
          (match getattr isFeature "isFeatureLayer" with
           | Except.error e => Except.error e
           | Except.ok false => Except.ok false
           | Except.ok true =>
             if supportsDS then
               match getattr isBasemap "isBasemapLayer" with
               | Except.error e => Except.error e
               | Except.ok basemapValue => Except.ok (!basemapValue)
             else Except.ok false) with
        | Except.error e => Except.error e
        | Except.ok featureCondition =>
          match pyGetAllFeatureLayers rest parentVisible visibleOnly includeGroups with
          | Except.error e => Except.error e
          | Except.ok fromRest =>
            Except.ok ((if featureCondition && (!visibleOnly || effectiveVisibility)
              then [layer] else []) ++ fromRest)

mutual

/-- View a fully-attributed layer as a Python layer object (every attribute
slot present). -/
def Layer.toPy : Layer → PyLayer
  | .mk name visible isGroup isFeature isBasemap supportsDS children =>
    PyLayer.mk name (some visible) (some isGroup) (some isFeature) (some isBasemap)
      supportsDS (layersToPy children)

/-- `Layer.toPy` mapped over a list of layers. -/
def layersToPy : List Layer → List PyLayer
  | [] => []
  | l :: rest => Layer.toPy l :: layersToPy rest

end

/-- A folder connection entry as the Python code builds it:
`{"connectionString": ..., "alias": ..., "isHomeFolder": ...}`. -/
structure FolderConnection where
  connectionString : String
  aliasName : String
  isHomeFolder : Bool
deriving DecidableEq

/-- `_normalized` (src/arctools.py, lines 293-295) is
`os.path.normcase(os.path.abspath(path))`; modelled for already-absolute
forward-slash paths on a case-insensitive (Windows) platform: `abspath` is the
identity there and `normcase` folds case. -/
def normcase (path : String) : String := ⟨path.data.map Char.toLower⟩

/-- The per-candidate loop of step 5 of `clone_project` (src/arctools.py,
lines 304-314): skip falsy (empty) paths, skip candidates whose normalized
form equals the normalized home path, append everything else in order as
non-home connections.  The normalization function is a parameter because the
source delegates it to the platform's `os.path`. -/
def addFolderConnections (normalized : String → String) (normalizedHome : String) :
    List String → List FolderConnection
  | [] => []
  | candidatePath :: rest =>
    if candidatePath = "" then addFolderConnections normalized normalizedHome rest
    else if normalized candidatePath = normalizedHome then
      addFolderConnections normalized normalizedHome rest
    else
      { connectionString := candidatePath, aliasName := "", isHomeFolder := false }
        :: addFolderConnections normalized normalizedHome rest

/-- Step 5 of `clone_project` (src/arctools.py, lines 292-314): the freshly
built folder-connection list, starting from the home entry for the project
folder. -/
def buildFolderConnections (normalized : String → String) (projectFolder : String)
    (additionalFolderConnections : List String) : List FolderConnection :=
  { connectionString := projectFolder, aliasName := "", isHomeFolder := true }
    :: addFolderConnections normalized (normalized projectFolder) additionalFolderConnections

/-- The slice of `arcpy.mp.ArcGISProject` state that the scaffolding code
reads and writes. -/
structure Project where
  folderConnections : List FolderConnection
  homeFolder : Option String
  defaultGeodatabase : Option String
deriving DecidableEq

/-- Helper for `dirname`: the characters strictly before the last `/`. -/
def dirnameChars : List Char → List Char
  | [] => []
  | c :: cs => if cs.contains '/' then c :: dirnameChars cs else []

/-- `os.path.dirname`, modelled for forward-slash paths: everything before the
last separator (empty when there is none). -/
def dirname (path : String) : String := ⟨dirnameChars path.data⟩

/-- `os.path.exists` against an explicit model of the filesystem: the list of
paths that currently exist. -/
def pathExists (fileSystem : List String) (path : String) : Bool :=
  fileSystem.contains path

/-- The spec's error taxonomy for scaffolding: `DestinationExistsError`
corresponds to the `FileExistsError` raised by `create_project_folders`. -/
inductive ScaffoldError where
  | destinationExists (path : String)
deriving DecidableEq

/-- `create_project_folders` (src/arctools.py, lines 127-167): check, then
create the project folder and its `_Exports` subfolder; returns the grown
filesystem and the project folder path.  The existence check precedes every
creation, so on the error path the filesystem is returned untouched. -/
def createProjectFolders (fileSystem : List String) (projectsRoot projectName : String) :
    Except ScaffoldError (List String × String) :=
  let projectFolder := projectsRoot ++ "/" ++ projectName
  if pathExists fileSystem projectFolder then
    Except.error (ScaffoldError.destinationExists projectFolder)
  else
    Except.ok ((projectFolder ++ "/_Exports") :: projectFolder :: fileSystem, projectFolder)

/-- `clone_project` (src/arctools.py, lines 235-320), on the state the
function touches.  `saveACopy` materialises the new `.aprx` on disk and the
opened copy starts with the template's project state; the default geodatabase
is created only when missing but assigned whenever a path is given; finally
`updateFolderConnections` replaces the project's connection list with the
freshly built one (the function's docstring: "Replaces folder connections
with: [ {home folder, isHomeFolder=True}, *additional_folder_connections ]"). -/
def cloneProject (normalized : String → String) (fileSystem : List String)
    (template : Project) (newProjectPath : String) (geodatabasePath : Option String)
    (additionalFolderConnections : List String) : List String × Project :=
  let fs1 := newProjectPath :: fileSystem
  let newProject := template
  let step2 :=
    match geodatabasePath with
    | none => (fs1, newProject)
    | some gdbPath =>
      (if pathExists fs1 gdbPath then fs1 else gdbPath :: fs1,
       { newProject with defaultGeodatabase := some gdbPath })
  let projectFolder := dirname newProjectPath
  (step2.1,
   { step2.2 with
       homeFolder := some projectFolder,
       folderConnections :=
         buildFolderConnections normalized projectFolder additionalFolderConnections })

/-- The scaffold pipeline as driven by `make_new_project`
(src/MakeNewProject.py, lines 80-94): `create_project_folders`, then
`clone_project` with the new `.aprx` path, the new `.gdb` path and the
`_Exports` subfolder as the extra folder connection. -/
def makeNewProjectScaffold (normalized : String → String) (fileSystem : List String)
    (template : Project) (projectsRoot fullProjectName : String) :
    Except ScaffoldError (List String × Project) :=
  match createProjectFolders fileSystem projectsRoot fullProjectName with
  | Except.error e => Except.error e
  | Except.ok (fs2, projectFolder) =>
    let newAprxPath := projectFolder ++ "/" ++ fullProjectName ++ ".aprx"
    let newGeodatabasePath := projectFolder ++ "/" ++ fullProjectName ++ ".gdb"
    let exportsFolder := projectFolder ++ "/_Exports"
    Except.ok (cloneProject normalized fs2 template newAprxPath (some newGeodatabasePath)
      [exportsFolder])

/-- The folder-connection handling of the older `clone_project`
(src/_Scripts/arcgis_utils.py, lines 61-65): keep the template project's
existing connections demoted to non-home (`dict(f, isHomeFolder=False)`),
then append the home entry, then the extra folders. -/
def oldCloneFolderConnections (template : Project) (projFolder : String)
    (addFolders : List String) : List FolderConnection :=
  (template.folderConnections.map fun f => { f with isHomeFolder := false })
    ++ [{ connectionString := projFolder, aliasName := "", isHomeFolder := true }]
    ++ addFolders.map fun path =>
        { connectionString := path, aliasName := "", isHomeFolder := false }

/-- `set_connections` (src/AllTheThings.py, lines 80-85): when the project's
geodatabase does not exist yet, create it and assign it as the default; when
it already exists, neither branch runs (in particular `defaultGeodatabase` is
left untouched); then set the home folder unconditionally. -/
def set_connections (fileSystem : List String) (newAprx : Project)
    (projectFolder projectName : String) : List String × Project :=
  let projectGeodatabase := projectFolder ++ "/" ++ projectName ++ ".gdb"
  if pathExists fileSystem projectGeodatabase then
    (fileSystem, { newAprx with homeFolder := some projectFolder })
  else
    (projectGeodatabase :: fileSystem,
     { newAprx with
         defaultGeodatabase := some projectGeodatabase,
         homeFolder := some projectFolder })

/- Concrete fixtures used by scenario conjuncts, counterexamples and
witnesses. -/

def layerA : Layer := Layer.mk "A" true false true false true []

def layerB : Layer := Layer.mk "B" false false true false true []

def layerC : Layer := Layer.mk "C" true false true false true []

/-- The spec's scenario tree with the group invisible:
`[Group(visible=false, children=[A(visible=true), B(visible=false)]), C(visible=true)]`. -/
def invisibleGroupTree : List Layer :=
  [Layer.mk "Group" false true false false false [layerA, layerB], layerC]

/-- A group layer that is also flagged as a basemap layer. -/
def basemapGroup : Layer := Layer.mk "BasemapGroup" true true false true false []

/-- A visible non-group feature layer flagged as a basemap layer, with the
data-source capability. -/
def basemapFeature : Layer := Layer.mk "Basemap" true false true true true []

/-- A visible non-group feature layer lacking the data-source capability. -/
def pyNoDataSource : PyLayer :=
  PyLayer.mk "NoDS" (some true) (some false) (some true) (some false) false []

/-- A non-group feature layer whose object does not carry the `visible`
attribute. -/
def pyMissingVisible : PyLayer :=
  PyLayer.mk "NoVisible" none (some false) (some true) (some false) true []

def blankProject : Project :=
  { folderConnections := [], homeFolder := none, defaultGeodatabase := none }

/-- A template project carrying one pre-existing folder connection. -/
def templateWithOldConnection : Project :=
  { folderConnections := [{ connectionString := "/old", aliasName := "", isHomeFolder := true }],
    homeFolder := some "/old", defaultGeodatabase := none }

deriving instance DecidableEq for Except

/-! ## Layer-traversal lemmas -/

@[simp] theorem Layer.visible_mk (n : String) (v g f b s : Bool) (cs : List Layer) :
    (Layer.mk n v g f b s cs).visible = v := rfl

@[simp] theorem Layer.isGroupLayer_mk (n : String) (v g f b s : Bool) (cs : List Layer) :
    (Layer.mk n v g f b s cs).isGroupLayer = g := rfl

@[simp] theorem Layer.isFeatureLayer_mk (n : String) (v g f b s : Bool) (cs : List Layer) :
    (Layer.mk n v g f b s cs).isFeatureLayer = f := rfl

@[simp] theorem Layer.isBasemapLayer_mk (n : String) (v g f b s : Bool) (cs : List Layer) :
    (Layer.mk n v g f b s cs).isBasemapLayer = b := rfl

@[simp] theorem Layer.supportsDataSource_mk (n : String) (v g f b s : Bool) (cs : List Layer) :
    (Layer.mk n v g f b s cs).supportsDataSource = s := rfl

@[simp] theorem Layer.listLayers_mk (n : String) (v g f b s : Bool) (cs : List Layer) :
    (Layer.mk n v g f b s cs).listLayers = cs := rfl

-- The traversal with `visible_only=true`, `include_groups=false` computes the
-- spec-side characterization, for every inherited visibility flag.
theorem getAll_eq_specLeaves :
    (layers : List Layer) → (parentVisible : Bool) →
    getAllFeatureLayers layers parentVisible true false
      = specVisibleFeatureLeaves layers parentVisible
  | [], _ => by simp [getAllFeatureLayers, specVisibleFeatureLeaves]
  | Layer.mk n v g f b s cs :: rest, pv => by
    have ih1 := getAll_eq_specLeaves cs (v && pv)
    have ih2 := getAll_eq_specLeaves rest pv
    simp only [getAllFeatureLayers, specVisibleFeatureLeaves]
    rw [ih1, ih2]
    cases g <;> cases f <;> cases s <;> cases b <;> cases v <;> cases pv <;> simp

-- Removing the group nodes from the `include_groups=true` output yields the
-- `include_groups=false` output.
theorem filter_getAll_includeGroups :
    (layers : List Layer) → (parentVisible visibleOnly : Bool) →
    (getAllFeatureLayers layers parentVisible visibleOnly true).filter
        (fun l => !l.isGroupLayer)
      = getAllFeatureLayers layers parentVisible visibleOnly false
  | [], _, _ => by simp [getAllFeatureLayers]
  | Layer.mk n v g f b s cs :: rest, pv, vo => by
    have ih1 := filter_getAll_includeGroups cs (v && pv) vo
    have ih2 := filter_getAll_includeGroups rest pv vo
    simp only [getAllFeatureLayers]
    cases g <;> cases f <;> cases s <;> cases b <;>
      simp [List.filter_append, List.filter_cons,
        apply_ite (List.filter fun l : Layer => !l.isGroupLayer), ih1, ih2]

-- Every non-group node in any traversal output is a feature layer with the
-- data-source capability and is not a basemap layer.
theorem getAll_mem_nonGroup :
    (layers : List Layer) → (pv vo ig : Bool) → (l : Layer) →
    l ∈ getAllFeatureLayers layers pv vo ig → l.isGroupLayer = false →
    l.isFeatureLayer = true ∧ l.supportsDataSource = true ∧ l.isBasemapLayer = false
  | [], pv, vo, ig, l, hmem, _ => by simp [getAllFeatureLayers] at hmem
  | Layer.mk n v g f b s cs :: rest, pv, vo, ig, l, hmem, hng => by
    simp only [getAllFeatureLayers, List.mem_append] at hmem
    rcases hmem with (hhead | hrest)
    · cases g with
      | true =>
        simp only [Bool.true_eq_false, if_true] at hhead
        rcases List.mem_append.mp hhead with (hself | hchild)
        · have hl : l = Layer.mk n v true f b s cs := by
            split at hself
            · exact List.mem_singleton.mp hself
            · simp at hself
          rw [hl] at hng
          simp at hng
        · exact getAll_mem_nonGroup cs (v && pv) vo ig l hchild hng
      | false =>
        rw [if_neg (by simp)] at hhead
        by_cases hf : (f && s && !b) = true
        · rw [if_pos hf] at hhead
          have hl : l = Layer.mk n v false f b s cs := by
            split at hhead
            · exact List.mem_singleton.mp hhead
            · simp at hhead
          subst hl
          simp only [Bool.and_eq_true, Bool.not_eq_true'] at hf
          exact ⟨hf.1.1, hf.1.2, hf.2⟩
        · rw [if_neg hf] at hhead
          simp at hhead
    · exact getAll_mem_nonGroup rest pv vo ig l hrest hng

-- On forests without basemap layers, the old traversal agrees with the new
-- one at `visible_only=true`, `include_groups=false`.
theorem getVisible_eq_getAll_of_noBasemap :
    (layers : List Layer) → (parentVisible : Bool) → noBasemapLayers layers = true →
    getVisibleFeatureLayers layers parentVisible
      = getAllFeatureLayers layers parentVisible true false
  | [], _, _ => by simp [getVisibleFeatureLayers, getAllFeatureLayers]
  | Layer.mk n v g f b s cs :: rest, pv, h => by
    simp only [noBasemapLayers, Bool.and_eq_true, Bool.not_eq_true'] at h
    obtain ⟨⟨hb, hcs⟩, hrest⟩ := h
    subst hb
    have ih1 := getVisible_eq_getAll_of_noBasemap cs (v && pv) hcs
    have ih2 := getVisible_eq_getAll_of_noBasemap rest pv hrest
    simp only [getVisibleFeatureLayers, getAllFeatureLayers]
    rw [ih2]
    cases g with
    | true => simp [ih1]
    | false => cases f <;> cases s <;> cases hvp : (v && pv) <;> simp [hvp]

-- `layersToPy` distributes over list append.
theorem layersToPy_append :
    (a b : List Layer) → layersToPy (a ++ b) = layersToPy a ++ layersToPy b
  | [], b => by simp [layersToPy]
  | l :: rest, b => by simp [layersToPy, layersToPy_append rest b]

-- On fully-attributed input, the Python-semantics traversal never raises and
-- computes exactly what `getAllFeatureLayers` computes.
theorem pyGetAll_layersToPy :
    (layers : List Layer) → (pv vo ig : Bool) →
    pyGetAllFeatureLayers (layersToPy layers) pv vo ig
      = Except.ok (layersToPy (getAllFeatureLayers layers pv vo ig))
  | [], _, _, _ => by simp [layersToPy, pyGetAllFeatureLayers, getAllFeatureLayers]
  | Layer.mk n v g f b s cs :: rest, pv, vo, ig => by
    have ih1 := pyGetAll_layersToPy cs (v && pv) vo ig
    have ih2 := pyGetAll_layersToPy rest pv vo ig
    simp only [layersToPy, Layer.toPy, pyGetAllFeatureLayers, getAllFeatureLayers, getattr]
    cases g <;> cases f <;> cases s <;> cases b <;>
      simp [ih1, ih2, layersToPy_append, layersToPy, Layer.toPy,
        apply_ite layersToPy]

/-! ## Claim theorems: layer traversal -/

/-- C1: with `visible_only=true` and `include_groups=false`,
`get_all_feature_layers` returns exactly those leaf nodes that are feature
layers, have the data-source capability, are not basemap layers, and whose
effective visibility (own `visible` flag ANDed with every ancestor's flag up
to the root) is true, in depth-first pre-order (the spec-side
`specVisibleFeatureLeaves`); in particular, on the spec's scenario tree with
the group invisible, the visible feature layer A inside the group is excluded
while the visible sibling C outside it is returned. -/
theorem C1_visibleOnly_traversal :
    (∀ (layers : List Layer) (parentVisible : Bool),
        getAllFeatureLayers layers parentVisible true false
          = specVisibleFeatureLeaves layers parentVisible)
      ∧ getAllFeatureLayers invisibleGroupTree true true false = [layerC] :=
  ⟨getAll_eq_specLeaves, by
    simp [invisibleGroupTree, layerA, layerB, layerC, getAllFeatureLayers]⟩

/-- C6 counterexample: a group layer flagged as a basemap layer is returned by
the traversal under `include_groups=true` — so a basemap layer (and likewise a
node lacking the data-source capability) can appear in the output, contrary to
the claim that the exclusion covers every returned node including groups. -/
theorem C6_counterexample :
    getAllFeatureLayers [basemapGroup] true false true = [basemapGroup]
      ∧ basemapGroup.isBasemapLayer = true :=
  ⟨by simp [basemapGroup, getAllFeatureLayers], rfl⟩

/-- C6 (amended): for every tree and every option combination, every
*non-group* node in the traversal output is a feature layer that has the
data-source capability and is not a basemap layer; group nodes returned under
`include_groups=true` are not subject to these checks. -/
theorem C6_nonGroup_exclusions :
    ∀ (layers : List Layer) (parentVisible visibleOnly includeGroups : Bool) (l : Layer),
      l ∈ getAllFeatureLayers layers parentVisible visibleOnly includeGroups →
      l.isGroupLayer = false →
      l.isFeatureLayer = true ∧ l.supportsDataSource = true ∧ l.isBasemapLayer = false :=
  fun layers pv vo ig l hmem hng => getAll_mem_nonGroup layers pv vo ig l hmem hng

/-- Witness for C6 (amended) at a concrete input. -/
theorem C6_nonGroup_exclusions_witness :
    layerC.isFeatureLayer = true ∧ layerC.supportsDataSource = true
      ∧ layerC.isBasemapLayer = false :=
  C6_nonGroup_exclusions [layerC] true false false layerC
    (by simp [getAllFeatureLayers, layerC]) rfl

/-- C7: for every tree and every `visible_only`, filtering the group nodes out
of the `include_groups=true` output yields exactly the `include_groups=false`
output (same feature layers, same relative order), and the
`include_groups=false` output contains no group nodes — so toggling
`include_groups` only adds or removes group nodes. -/
theorem C7_includeGroups_toggle :
    ∀ (layers : List Layer) (parentVisible visibleOnly : Bool),
      (getAllFeatureLayers layers parentVisible visibleOnly true).filter
          (fun l => !l.isGroupLayer)
        = getAllFeatureLayers layers parentVisible visibleOnly false
      ∧ ∀ l ∈ getAllFeatureLayers layers parentVisible visibleOnly false,
          l.isGroupLayer = false := by
  intro layers pv vo
  refine ⟨filter_getAll_includeGroups layers pv vo, ?_⟩
  intro l hl
  rw [← filter_getAll_includeGroups layers pv vo] at hl
  simpa using (List.mem_filter.mp hl).2

/-- Witness for C7 at a concrete input. -/
theorem C7_includeGroups_toggle_witness :
    (getAllFeatureLayers invisibleGroupTree true false true).filter
        (fun l => !l.isGroupLayer)
      = getAllFeatureLayers invisibleGroupTree true false false
      ∧ layerC.isGroupLayer = false :=
  ⟨(C7_includeGroups_toggle invisibleGroupTree true false).1,
   (C7_includeGroups_toggle invisibleGroupTree true false).2 layerC
     (by simp [getAllFeatureLayers, invisibleGroupTree, layerA, layerB, layerC])⟩

/-- C9 counterexample: a node whose object lacks the `visible` attribute makes
the traversal raise `AttributeError` (the access `layer.visible` on line 207
is unguarded) instead of the node being excluded from the output. -/
theorem C9_counterexample :
    pyGetAllFeatureLayers [pyMissingVisible] true false false
      = Except.error "AttributeError: visible" := by
  simp [pyGetAllFeatureLayers, pyMissingVisible, getattr]

/-- C9 (amended): the traversal terminates and returns a list without raising
on every finite acyclic input whose nodes carry the expected attributes (and
there it computes `getAllFeatureLayers`); empty input yields empty output; and
a feature layer lacking the data-source capability is excluded rather than
raising (the `supports` check answers `False` instead of raising).  A node
missing one of the `visible`/`isGroupLayer`/`isFeatureLayer`/`isBasemapLayer`
attributes, however, raises rather than being excluded. -/
theorem C9_totality :
    (∀ (layers : List Layer) (parentVisible visibleOnly includeGroups : Bool),
        pyGetAllFeatureLayers (layersToPy layers) parentVisible visibleOnly includeGroups
          = Except.ok (layersToPy
              (getAllFeatureLayers layers parentVisible visibleOnly includeGroups)))
      ∧ (∀ parentVisible visibleOnly includeGroups : Bool,
          pyGetAllFeatureLayers [] parentVisible visibleOnly includeGroups = Except.ok [])
      ∧ pyGetAllFeatureLayers [pyNoDataSource] true false false = Except.ok [] :=
  ⟨pyGetAll_layersToPy, fun _ _ _ => by simp [pyGetAllFeatureLayers],
   by simp [pyGetAllFeatureLayers, pyNoDataSource, getattr]⟩

/-- C10 counterexample: on a visible basemap feature layer the two traversals
disagree — the old `get_visible_feature_layers` returns it (it has no basemap
check), while `get_all_feature_layers(visible_only=true,
include_groups=false)` excludes it. -/
theorem C10_counterexample :
    getVisibleFeatureLayers [basemapFeature] true
      ≠ getAllFeatureLayers [basemapFeature] true true false := by
  have h1 : getVisibleFeatureLayers [basemapFeature] true = [basemapFeature] := by
    simp [getVisibleFeatureLayers, basemapFeature]
  have h2 : getAllFeatureLayers [basemapFeature] true true false = [] := by
    simp [getAllFeatureLayers, basemapFeature]
  rw [h1, h2]
  simp

/-- C10 (amended): on every tree that contains no basemap layers, the older
`get_visible_feature_layers` returns the same sequence of layers as
`get_all_feature_layers` called with `visible_only=true` and
`include_groups=false`. -/
theorem C10_equivalence_without_basemaps :
    ∀ (layers : List Layer) (parentVisible : Bool),
      noBasemapLayers layers = true →
      getVisibleFeatureLayers layers parentVisible
        = getAllFeatureLayers layers parentVisible true false :=
  fun layers pv h => getVisible_eq_getAll_of_noBasemap layers pv h

/-- Witness for C10 (amended) at a concrete input. -/
theorem C10_equivalence_without_basemaps_witness :
    noBasemapLayers invisibleGroupTree = true
      ∧ getVisibleFeatureLayers invisibleGroupTree true
        = getAllFeatureLayers invisibleGroupTree true true false :=
  ⟨by simp [noBasemapLayers, invisibleGroupTree, layerA, layerB, layerC],
   C10_equivalence_without_basemaps invisibleGroupTree true
     (by simp [noBasemapLayers, invisibleGroupTree, layerA, layerB, layerC])⟩

/-! ## Connection-reconciliation lemmas -/

-- The extras loop produces exactly the kept extras, in order, as non-home
-- entries.
theorem addFolderConnections_eq_filter_map (normalized : String → String)
    (normalizedHome : String) (paths : List String) :
    addFolderConnections normalized normalizedHome paths
      = (paths.filter fun p => !(p == "") && !(normalized p == normalizedHome)).map
          (fun p => { connectionString := p, aliasName := "", isHomeFolder := false }) := by
  induction paths with
  | nil => simp [addFolderConnections]
  | cons p rest ih =>
    simp only [addFolderConnections]
    by_cases h1 : p = "" <;> by_cases h2 : normalized p = normalizedHome <;>
      simp [h1, h2, ih, List.filter_cons]

-- Every entry produced by the extras loop is non-home and differs from the
-- home path after normalization.
theorem addFolderConnections_no_home (normalized : String → String)
    (normalizedHome : String) (paths : List String) :
    ∀ c ∈ addFolderConnections normalized normalizedHome paths,
      c.isHomeFolder = false ∧ normalized c.connectionString ≠ normalizedHome := by
  rw [addFolderConnections_eq_filter_map]
  intro c hc
  simp only [List.mem_map, List.mem_filter, Bool.and_eq_true, Bool.not_eq_true',
    beq_eq_false_iff_ne] at hc
  obtain ⟨p, ⟨-, -, hne2⟩, rfl⟩ := hc
  exact ⟨rfl, hne2⟩

/-! ## Claim theorems: connection reconciliation and scaffolding -/

/-- C2: for every normalization function, project folder and extras list, the
reconciled connection list has exactly one entry flagged home; that entry is
the project folder and is listed first; exactly one entry (the home itself)
resolves to the home folder's normalized path; the tail is exactly the
non-empty extras that do not normalize to the home path, in caller-given
order, as non-home entries; and on the spec's scenario
(`["/proj", "/proj/_Exports", "/PROJ"]` with home `/proj` under case-folding
normalization) the result is exactly the home entry plus `_Exports`. -/
theorem C2_reconciliation_invariant :
    ∀ (normalized : String → String) (projectFolder : String) (extraFolders : List String),
      (buildFolderConnections normalized projectFolder extraFolders).countP
          (fun c => c.isHomeFolder) = 1
      ∧ (buildFolderConnections normalized projectFolder extraFolders).head?
          = some { connectionString := projectFolder, aliasName := "", isHomeFolder := true }
      ∧ ((buildFolderConnections normalized projectFolder extraFolders).countP
          fun c => normalized c.connectionString == normalized projectFolder) = 1
      ∧ (buildFolderConnections normalized projectFolder extraFolders).tail
          = (extraFolders.filter fun p =>
              !(p == "") && !(normalized p == normalized projectFolder)).map
              (fun p => { connectionString := p, aliasName := "", isHomeFolder := false })
      ∧ buildFolderConnections normcase "/proj" ["/proj", "/proj/_Exports", "/PROJ"]
          = [{ connectionString := "/proj", aliasName := "", isHomeFolder := true },
             { connectionString := "/proj/_Exports", aliasName := "", isHomeFolder := false }] := by
  intro normalized projectFolder extraFolders
  have hnone := addFolderConnections_no_home normalized (normalized projectFolder) extraFolders
  refine ⟨?_, rfl, ?_, ?_, ?_⟩
  · have h0 : (addFolderConnections normalized (normalized projectFolder)
        extraFolders).countP (fun c => c.isHomeFolder) = 0 := by
      rw [List.countP_eq_zero]
      intro c hc
      simp [(hnone c hc).1]
    simp [buildFolderConnections, List.countP_cons, h0]
  · have h0 : (addFolderConnections normalized (normalized projectFolder)
        extraFolders).countP
          (fun c => normalized c.connectionString == normalized projectFolder) = 0 := by
      rw [List.countP_eq_zero]
      intro c hc
      simp [(hnone c hc).2]
    simp [buildFolderConnections, List.countP_cons, h0]
  · simpa [buildFolderConnections] using
      addFolderConnections_eq_filter_map normalized (normalized projectFolder) extraFolders
  · decide

/-- C3 counterexample: with two identical non-home extras `/a`, both are
appended, so the reconciled list contains two entries that resolve to the same
normalized absolute path — the dedup is applied only against the home path. -/
theorem C3_counterexample :
    buildFolderConnections normcase "/proj" ["/a", "/a"]
      = [{ connectionString := "/proj", aliasName := "", isHomeFolder := true },
         { connectionString := "/a", aliasName := "", isHomeFolder := false },
         { connectionString := "/a", aliasName := "", isHomeFolder := false }]
      ∧ ((buildFolderConnections normcase "/proj" ["/a", "/a"]).countP
          fun c => normcase c.connectionString == normcase "/a") = 2 := by
  constructor <;> decide

/-- C3 (amended): deduplication applies only against the home path — exactly
one entry (the home itself) resolves to the home folder's normalized path, but
duplicates among the non-home extras are not filtered: every non-empty extra
that does not normalize to the home path contributes its own entry, so two
non-home extras with the same normalized path both appear. -/
theorem C3_home_dedup_only :
    ∀ (normalized : String → String) (projectFolder : String) (extraFolders : List String),
      ((buildFolderConnections normalized projectFolder extraFolders).countP
          fun c => normalized c.connectionString == normalized projectFolder) = 1
      ∧ (buildFolderConnections normalized projectFolder extraFolders).tail.length
          = (extraFolders.filter fun p =>
              !(p == "") && !(normalized p == normalized projectFolder)).length := by
  intro normalized projectFolder extraFolders
  have hnone := addFolderConnections_no_home normalized (normalized projectFolder) extraFolders
  constructor
  · have h0 : (addFolderConnections normalized (normalized projectFolder)
        extraFolders).countP
          (fun c => normalized c.connectionString == normalized projectFolder) = 0 := by
      rw [List.countP_eq_zero]
      intro c hc
      simp [(hnone c hc).2]
    simp [buildFolderConnections, List.countP_cons, h0]
  · simp [buildFolderConnections,
      addFolderConnections_eq_filter_map normalized (normalized projectFolder) extraFolders]

/-- C5 (amended): `clone_project` in src/arctools.py rebuilds the connection
list from scratch and replaces the project's connection set with it: the
scaffolded project's connections are exactly `buildFolderConnections` of the
home folder and the extras, independent of whatever connections the template
carried.  (The older `clone_project` in src/_Scripts/arcgis_utils.py instead
keeps the template's connections — see its counterexample.) -/
theorem C5_connections_replaced :
    ∀ (normalized : String → String) (fileSystem : List String)
      (template template2 : Project) (newProjectPath : String)
      (geodatabasePath : Option String) (extraFolders : List String),
      (cloneProject normalized fileSystem template newProjectPath geodatabasePath
          extraFolders).2.folderConnections
        = buildFolderConnections normalized (dirname newProjectPath) extraFolders
      ∧ (cloneProject normalized fileSystem template newProjectPath geodatabasePath
            extraFolders).2.folderConnections
          = (cloneProject normalized fileSystem template2 newProjectPath geodatabasePath
              extraFolders).2.folderConnections :=
  fun _ _ _ _ _ _ _ => ⟨rfl, rfl⟩

/-- C5 counterexample: the older `clone_project`
(src/_Scripts/arcgis_utils.py, lines 61-65) keeps the template's pre-existing
connection `/old` — demoted to non-home — in the scaffolded project's
connection set: a merge with the template's prior entries, not a replace. -/
theorem C5_counterexample :
    oldCloneFolderConnections templateWithOldConnection "/proj" []
      = [{ connectionString := "/old", aliasName := "", isHomeFolder := false },
         { connectionString := "/proj", aliasName := "", isHomeFolder := true }]
      ∧ { connectionString := "/old", aliasName := "", isHomeFolder := true }
          ∈ templateWithOldConnection.folderConnections := by
  constructor <;> decide

/-- C8: at a filesystem where the geodatabase `/proj/P.gdb` already exists,
`clone_project` (src/arctools.py) reuses it — no second creation attempt, the
filesystem gains only the new `.aprx` — and still assigns it as the project's
default geodatabase; but `set_connections` (src/AllTheThings.py) leaves
`defaultGeodatabase` unset at the same input, because the assignment sits
inside the not-exists branch. -/
theorem C8_existing_container :
    (set_connections ["/proj/P.gdb"] blankProject "/proj" "P").2.defaultGeodatabase = none
      ∧ (set_connections ["/proj/P.gdb"] blankProject "/proj" "P").1 = ["/proj/P.gdb"]
      ∧ (cloneProject normcase ["/proj/P.gdb"] blankProject "/proj/P.aprx"
            (some "/proj/P.gdb") []).2.defaultGeodatabase = some "/proj/P.gdb"
      ∧ (cloneProject normcase ["/proj/P.gdb"] blankProject "/proj/P.aprx"
            (some "/proj/P.gdb") []).1 = ["/proj/P.aprx", "/proj/P.gdb"] := by
  refine ⟨?_, ?_, ?_, ?_⟩ <;> decide

-- `pathExists` is membership in the filesystem model.
theorem pathExists_iff_mem (fileSystem : List String) (path : String) :
    pathExists fileSystem path = true ↔ path ∈ fileSystem := by
  simp [pathExists]

-- Every path in the filesystem survives `cloneProject` (it only adds paths).
theorem mem_cloneProject_fileSystem (normalized : String → String)
    (fileSystem : List String) (template : Project) (newProjectPath : String)
    (geodatabasePath : Option String) (extraFolders : List String) (x : String)
    (hx : x ∈ fileSystem) :
    x ∈ (cloneProject normalized fileSystem template newProjectPath geodatabasePath
      extraFolders).1 := by
  simp only [cloneProject]
  cases geodatabasePath with
  | none => exact List.mem_cons_of_mem _ hx
  | some gdbPath =>
    simp only []
    split
    · exact List.mem_cons_of_mem _ hx
    · exact List.mem_cons_of_mem _ (List.mem_cons_of_mem _ hx)

-- A successful scaffold's filesystem contains the project folder.
theorem scaffold_ok_mem (normalized : String → String) (fileSystem : List String)
    (template : Project) (projectsRoot projectName : String)
    (fileSystem2 : List String) (newProject : Project)
    (hok : makeNewProjectScaffold normalized fileSystem template projectsRoot projectName
      = Except.ok (fileSystem2, newProject)) :
    (projectsRoot ++ "/" ++ projectName) ∈ fileSystem2 := by
  unfold makeNewProjectScaffold at hok
  split at hok
  · simp at hok
  · rename_i fsA projectFolder heq
    unfold createProjectFolders at heq
    dsimp only at heq
    split at heq
    · simp at heq
    · simp only [Except.ok.injEq, Prod.mk.injEq] at heq
      obtain ⟨hfsA, hpf⟩ := heq
      simp only [Except.ok.injEq] at hok
      have h1 := congrArg Prod.fst hok
      simp only at h1
      rw [← h1]
      apply mem_cloneProject_fileSystem
      rw [← hfsA]
      exact List.mem_cons_of_mem _ (List.mem_cons_self _ _)

/-- C4: the scaffold pipeline (`create_project_folders` then `clone_project`,
as driven by `make_new_project`) is check-then-create: when something already
exists at the scaffold target (the project folder), the pipeline fails with
`DestinationExistsError` (the `FileExistsError` of `create_project_folders`)
before creating or overwriting anything — the existence check precedes every
creation and the error path returns no modified state; in particular, after a
successful scaffold, a second call with the identical target raises while the
first call's filesystem is left as it was. -/
theorem C4_check_then_create :
    ∀ (normalized : String → String) (fileSystem : List String) (template : Project)
      (projectsRoot projectName : String),
      (pathExists fileSystem (projectsRoot ++ "/" ++ projectName) = true →
        makeNewProjectScaffold normalized fileSystem template projectsRoot projectName
          = Except.error (ScaffoldError.destinationExists
              (projectsRoot ++ "/" ++ projectName)))
      ∧ ∀ (fileSystem2 : List String) (newProject template2 : Project),
          makeNewProjectScaffold normalized fileSystem template projectsRoot projectName
            = Except.ok (fileSystem2, newProject) →
          makeNewProjectScaffold normalized fileSystem2 template2 projectsRoot projectName
            = Except.error (ScaffoldError.destinationExists
                (projectsRoot ++ "/" ++ projectName)) := by
  intro normalized fs template root name
  have herr : ∀ (fs' : List String) (t' : Project),
      pathExists fs' (root ++ "/" ++ name) = true →
      makeNewProjectScaffold normalized fs' t' root name
        = Except.error (ScaffoldError.destinationExists (root ++ "/" ++ name)) := by
    intro fs' t' h
    simp [makeNewProjectScaffold, createProjectFolders, h]
  refine ⟨herr fs template, ?_⟩
  intro fs2 np t2 hok
  exact herr fs2 t2 ((pathExists_iff_mem fs2 (root ++ "/" ++ name)).mpr
    (scaffold_ok_mem normalized fs template root name fs2 np hok))

/-- Witness for C4 at a concrete input: scaffolding `P` under
`C:/GIS/Projects` on an empty filesystem succeeds with the listed filesystem
and project, and the second call with the identical target raises
`DestinationExistsError` on that state. -/
theorem C4_check_then_create_witness :
    makeNewProjectScaffold normcase
        ["C:/GIS/Projects/P/P.gdb", "C:/GIS/Projects/P/P.aprx",
         "C:/GIS/Projects/P/_Exports", "C:/GIS/Projects/P"]
        blankProject "C:/GIS/Projects" "P"
      = Except.error (ScaffoldError.destinationExists "C:/GIS/Projects/P") :=
  (C4_check_then_create normcase [] blankProject "C:/GIS/Projects" "P").2
    ["C:/GIS/Projects/P/P.gdb", "C:/GIS/Projects/P/P.aprx",
     "C:/GIS/Projects/P/_Exports", "C:/GIS/Projects/P"]
    { folderConnections :=
        [{ connectionString := "C:/GIS/Projects/P", aliasName := "", isHomeFolder := true },
         { connectionString := "C:/GIS/Projects/P/_Exports", aliasName := "",
           isHomeFolder := false }],
      homeFolder := some "C:/GIS/Projects/P",
      defaultGeodatabase := some "C:/GIS/Projects/P/P.gdb" }
    blankProject (by decide)
